import Mathlib

/-!
Verification of the core data-shaping logic of the URW retail-mix dashboard
(src/app.py) against its specification.

The program is a single pandas script.  We embed its four computational
pieces shallowly:

* the reference join in load_data (pd.read_csv NA handling, pd.to_numeric
  with errors="coerce", a left merge on the mall id, and the Mall_Display
  fallback lambda);
* the opportunity ranking (filter on Mall_ID, sort_values on Revenue_Uplift
  descending, head(top_n));
* the portfolio aggregation (Series.sum, Series.mean as KPIs);
* the scenario assembly (iloc[0] row selection, the alternatives expander,
  the chart_data frame).

Numeric cells are modelled as rationals; a pandas NaN / missing value is
modelled as Option.none.  Where pandas behaviour matters it is recorded in
the doc comment of the corresponding definition.
-/

/-- One row of the units dataset urw_dashboard_data.csv, as loaded by
pd.read_csv in load_data (src/app.py line 38).  Column names follow the
source.  Mall_ID is taken as an integer here, matching the data model of the
spec; the fallback analysis with malformed Mall_ID cells is done separately
with the PVal model below.  The optional second and third recommendation
columns may be missing or NaN per row, which we represent with Option. -/
structure Row where
  Store_Code : String
  Mall_ID : Int
  Current_SubCat : String
  Rec_Category : String
  Rec_SubCat : String
  Current_Sales_Density : ℚ
  Model_Location_Potential : ℚ
  Rec_Projected_Sales : ℚ
  Revenue_Uplift : ℚ
  Rec_2_SubCat : Option String
  Rec_2_Uplift : Option ℚ
  Rec_3_SubCat : Option String
  Rec_3_Uplift : Option ℚ
deriving DecidableEq

/-- One raw row of the mall dimension file dim_malls_v1.csv: the two cells
used by load_data, before any parsing, exactly as they stand in the file. -/
structure MallRaw where
  id : String
  mall_name : String
deriving DecidableEq

/-- Digit-string parser: some n when the character list is nonempty and all
digits, none otherwise. -/
def natOfDigits (cs : List Char) : Option Nat :=
  if cs.isEmpty then none
  else if cs.all Char.isDigit then
    some (cs.foldl (fun n c => 10 * n + (c.toNat - 48)) 0)
  else none

/-- Splitting a character list at the decimal point. -/
def splitDot : List Char → List (List Char)
  | [] => [[]]
  | c :: t =>
    if c = '.' then [] :: splitDot t
    else
      match splitDot t with
      | [] => [[c]]
      | h :: r => (c :: h) :: r

/-- Model of pd.to_numeric(col, errors="coerce") on one cell (src/app.py
line 49): a decimal literal, optionally signed, optionally with a fractional
part, parses to its rational value; any other cell coerces to NaN, which we
model as none.  (The pandas parser also accepts scientific notation and
surrounding whitespace; the model covers the plain-decimal subset, which is
all the analysed claims exercise.) -/
def to_numeric (s : String) : Option ℚ :=
  let parse : List Char → Option ℚ := fun body =>
    match splitDot body with
    | [a] => (natOfDigits a).map (fun n => (n : ℚ))
    | [a, b] =>
      match natOfDigits a, natOfDigits b with
      | some n, some m => some ((n : ℚ) + (m : ℚ) / ((10 : ℚ) ^ b.length))
      | _, _ => none
    | _ => none
  match s.data with
  | '-' :: rest => (parse rest).map (fun q => -q)
  | cs => parse cs

/-- The default NA markers of pd.read_csv: a string cell equal to one of
these is loaded as NaN.  In particular the empty cell is NaN. -/
def naMarkers : List String :=
  ["", "#N/A", "#N/A N/A", "#NA", "-1.#IND", "-1.#QNAN", "-NaN", "-nan",
   "1.#IND", "1.#QNAN", "<NA>", "N/A", "NA", "NULL", "NaN", "None",
   "n/a", "nan", "null"]

/-- Model of reading one string cell with pd.read_csv default NA handling:
an NA marker (notably the empty cell) loads as NaN (none), anything else
loads as itself. -/
def readCell (s : String) : Option String :=
  if naMarkers.contains s then none else some s

/-- The three portfolio KPIs computed in src/app.py lines 87 to 89:
count is len(mall_data), avg_uplift is Series.mean of Revenue_Uplift,
total_opportunity is Series.sum of Revenue_Uplift times the assumed average
store size.  Series.mean of an empty series is NaN in pandas, hence the
Option on avg_uplift. -/
structure PortfolioMetrics where
  count : Nat
  avg_uplift : Option ℚ
  total_opportunity : ℚ
deriving DecidableEq

/-- Model of pandas Series.mean: NaN (none) on the empty series, the
arithmetic mean otherwise. -/
def seriesMean (xs : List ℚ) : Option ℚ :=
  if xs.length = 0 then none else some (xs.sum / (xs.length : ℚ))

/-- The portfolio aggregation of src/app.py lines 87 to 89, parametrised by
the assumed average unit area (the source fixes avg_store_size = 200 on
line 87). -/
def aggregate (ranked : List Row) (avg_unit_area : ℚ) : PortfolioMetrics :=
  { count := ranked.length
  , avg_uplift := seriesMean (ranked.map (fun r => r.Revenue_Uplift))
  , total_opportunity := (ranked.map (fun r => r.Revenue_Uplift)).sum * avg_unit_area }

/-- A concrete unit row used as input of several witnesses. -/
def rowA : Row :=
  { Store_Code := "S001"
  , Mall_ID := 1
  , Current_SubCat := "Books"
  , Rec_Category := "Fashion"
  , Rec_SubCat := "Apparel"
  , Current_Sales_Density := 300
  , Model_Location_Potential := 450
  , Rec_Projected_Sales := 400
  , Revenue_Uplift := 100
  , Rec_2_SubCat := some "Footwear"
  , Rec_2_Uplift := some 60
  , Rec_3_SubCat := some "Toys"
  , Rec_3_Uplift := some 30 }

/-- A second concrete unit row, with negative uplift. -/
def rowB : Row :=
  { Store_Code := "S002"
  , Mall_ID := 1
  , Current_SubCat := "Cafe"
  , Rec_Category := "Food"
  , Rec_SubCat := "Bakery"
  , Current_Sales_Density := 500
  , Model_Location_Potential := 520
  , Rec_Projected_Sales := 480
  , Revenue_Uplift := -20
  , Rec_2_SubCat := none
  , Rec_2_Uplift := none
  , Rec_3_SubCat := none
  , Rec_3_Uplift := none }

/-- Claim C3 counterexample: aggregating the empty ranked sequence with the
source constant avg_unit_area = 200 yields avg_uplift = NaN (none), not the
claimed defined numeric zero, even though count and total are 0. -/
theorem aggregate_empty_cex :
    (aggregate [] 200).avg_uplift = none ∧
    (aggregate [] 200).avg_uplift ≠ some 0 ∧
    (aggregate [] 200).count = 0 ∧
    (aggregate [] 200).total_opportunity = 0 := by
  refine ⟨rfl, ?_, rfl, by simp [aggregate]⟩
  simp [aggregate, seriesMean]

/-- Claim C3 (amended): aggregating an empty ranked sequence yields
count = 0 and total_opportunity_estimate = 0 for every avg_unit_area, but
avg_uplift is NaN (Series.mean of an empty series), not the numeric zero
the claim states. -/
theorem aggregate_empty_spec :
    ∀ area : ℚ, aggregate [] area =
      { count := 0, avg_uplift := none, total_opportunity := 0 } := by
  intro area
  simp [aggregate, seriesMean]

/-- Claim C6: for every ranked sequence and avg_unit_area, the total
opportunity estimate is the sum of the revenue uplifts times the area; in
particular two rows with uplifts 100 and -20 at area 200 give 16000. -/
theorem total_opportunity_spec :
    (∀ (ranked : List Row) (area : ℚ),
      (aggregate ranked area).total_opportunity =
        (ranked.map (fun r => r.Revenue_Uplift)).sum * area) ∧
    (aggregate [rowA, rowB] 200).total_opportunity = 16000 := by
  constructor
  · intro ranked area; rfl
  · simp [aggregate, rowA, rowB]
    norm_num

/-- Descending comparison on the ranking key Revenue_Uplift, as a
proposition between rows: the earlier row has uplift at least that of the
later row. -/
def upliftGE (a b : Row) : Prop := b.Revenue_Uplift ≤ a.Revenue_Uplift

instance : DecidableRel upliftGE := fun a b =>
  inferInstanceAs (Decidable (b.Revenue_Uplift ≤ a.Revenue_Uplift))

/-- Model of df.sort_values("Revenue_Uplift", ascending=False) with the
default kind="quicksort" (src/app.py line 82): the pandas contract for the
default kind guarantees only that the output is a permutation of the input
rows ordered by the key; the relative order of rows with equal keys is not
specified (per the pandas documentation, only the mergesort and stable
kinds are stable).  We therefore embed the call as a relation between the
input and the admissible outputs. -/
def SortValuesDesc (input output : List Row) : Prop :=
  input.Perm output ∧ output.Pairwise upliftGE

/-- The opportunity ranking of src/app.py lines 81 and 82 as a relation:
filter the joined view to the selected mall, sort by Revenue_Uplift
descending (any output admitted by the sort_values contract), and keep the
first top_n rows. -/
def RankBehavior (df : List Row) (loc : Int) (top_n : Nat) (out : List Row) : Prop :=
  ∃ s, SortValuesDesc (df.filter (fun r => r.Mall_ID == loc)) s ∧ out = s.take top_n

/-- Insertion of a row into a list sorted descending by uplift. -/
def insertDesc (r : Row) : List Row → List Row
  | [] => [r]
  | a :: t => if a.Revenue_Uplift < r.Revenue_Uplift then r :: a :: t else a :: insertDesc r t

/-- One concrete sorting function admitted by the sort_values contract:
insertion sort, descending by uplift.  Used to exhibit that the ranking
always has an output (the code never errors on any input, including the
empty filter result). -/
def sortDescFn : List Row → List Row
  | [] => []
  | r :: t => insertDesc r (sortDescFn t)

theorem insertDesc_perm (r : Row) (l : List Row) : (insertDesc r l).Perm (r :: l) := by
  induction l with
  | nil => exact List.Perm.refl _
  | cons a t ih =>
    by_cases h : a.Revenue_Uplift < r.Revenue_Uplift
    · simp [insertDesc, h]
    · simp only [insertDesc, h, if_false]
      exact (ih.cons a).trans (List.Perm.swap r a t)

theorem insertDesc_mem (x r : Row) (l : List Row) :
    x ∈ insertDesc r l → x = r ∨ x ∈ l := by
  intro hx
  have := (insertDesc_perm r l).mem_iff.mp hx
  simpa using this

theorem insertDesc_pairwise (r : Row) (l : List Row)
    (h : l.Pairwise upliftGE) : (insertDesc r l).Pairwise upliftGE := by
  induction l with
  | nil => simp [insertDesc, List.Pairwise]
  | cons a t ih =>
    rcases List.pairwise_cons.mp h with ⟨ha, ht⟩
    by_cases hcmp : a.Revenue_Uplift < r.Revenue_Uplift
    · simp only [insertDesc, hcmp, if_true]
      refine List.pairwise_cons.mpr ⟨?_, h⟩
      intro b hb
      rcases List.mem_cons.mp hb with hb | hb
      · subst hb; exact le_of_lt hcmp
      · exact le_trans (ha b hb) (le_of_lt hcmp)
    · simp only [insertDesc, hcmp, if_false]
      refine List.pairwise_cons.mpr ⟨?_, ih ht⟩
      intro b hb
      rcases insertDesc_mem b r t hb with hb | hb
      · subst hb; exact not_lt.mp hcmp
      · exact ha b hb

theorem sortDescFn_behavior (l : List Row) : SortValuesDesc l (sortDescFn l) := by
  induction l with
  | nil => exact ⟨List.Perm.refl _, List.Pairwise.nil⟩
  | cons r t ih =>
    rcases ih with ⟨hperm, hsorted⟩
    refine ⟨?_, insertDesc_pairwise r (sortDescFn t) hsorted⟩
    exact ((insertDesc_perm r (sortDescFn t)).trans ((hperm.symm).cons r)).symm

/-- Claim C5: for every joined view, mall and valid top_n (5 to 200), every
admissible ranking output has length min(top_n, number of exactly matching
rows), hence at most top_n; when no row matches the result is the empty
sequence; and an output always exists (the code raises no error, including
on an empty filter result). -/
theorem rank_length_spec (df : List Row) (loc : Int) (n : Nat) (out : List Row)
    (_h5 : 5 ≤ n) (_h200 : n ≤ 200) (h : RankBehavior df loc n out) :
    out.length = min n (df.filter (fun r => r.Mall_ID == loc)).length ∧
    out.length ≤ n ∧
    ((df.filter (fun r => r.Mall_ID == loc)).length = 0 → out = []) ∧
    ∃ o, RankBehavior df loc n o := by
  rcases h with ⟨s, ⟨hperm, _⟩, hout⟩
  subst hout
  have hlen : s.length = (df.filter (fun r => r.Mall_ID == loc)).length :=
    hperm.length_eq.symm
  refine ⟨?_, ?_, ?_, ?_⟩
  · rw [List.length_take, hlen]
  · rw [List.length_take]; exact Nat.min_le_left _ _
  · intro h0
    have hs : s = [] := List.eq_nil_of_length_eq_zero (hlen.trans h0)
    simp [hs]
  · exact ⟨(sortDescFn (df.filter (fun r => r.Mall_ID == loc))).take n,
      sortDescFn (df.filter (fun r => r.Mall_ID == loc)),
      sortDescFn_behavior _, rfl⟩

/-- Witness for rank_length_spec at a concrete input: two rows of mall 1,
top_n = 10. -/
theorem rank_length_spec_witness :
    ((sortDescFn ([rowA, rowB].filter (fun r => r.Mall_ID == 1))).take 10).length =
      min 10 ([rowA, rowB].filter (fun r => r.Mall_ID == 1)).length ∧
    ((sortDescFn ([rowA, rowB].filter (fun r => r.Mall_ID == 1))).take 10).length ≤ 10 ∧
    (([rowA, rowB].filter (fun r => r.Mall_ID == 1)).length = 0 →
      (sortDescFn ([rowA, rowB].filter (fun r => r.Mall_ID == 1))).take 10 = []) ∧
    ∃ o, RankBehavior [rowA, rowB] 1 10 o :=
  rank_length_spec [rowA, rowB] 1 10 _ (by decide) (by decide)
    ⟨sortDescFn ([rowA, rowB].filter (fun r => r.Mall_ID == 1)),
     sortDescFn_behavior _, rfl⟩

/-- One row of the merged frame produced on src/app.py line 50: the unit row
together with the mall_name column brought in by the left merge (NaN when
the unit matched no dimension row, or when the matched name cell was NA). -/
structure JoinedRow where
  unit : Row
  mall_name : Option String
deriving DecidableEq

/-- The dimension rows whose id cell coerces to the numeric value of a given
unit Mall_ID: the right-hand matches of the left merge.  A dimension row
whose id does not coerce (to_numeric gives NaN) matches no integer key. -/
def matchingMalls (ms : List MallRaw) (mid : Int) : List MallRaw :=
  ms.filter (fun m => to_numeric m.id == some (mid : ℚ))

/-- The block of merged rows a single unit row contributes in the left merge
(src/app.py line 50): one row with NaN mall_name when nothing matches,
otherwise one row per matching dimension row, in dimension order. -/
def mergeRowsFor (ms : List MallRaw) (u : Row) : List JoinedRow :=
  if (matchingMalls ms u.Mall_ID).isEmpty then [⟨u, none⟩]
  else (matchingMalls ms u.Mall_ID).map (fun m => ⟨u, readCell m.mall_name⟩)

/-- The left merge of src/app.py line 50: left row order is preserved and
every unit row contributes its block of matches (or a single unmatched
row). -/
def leftMerge (units : List Row) (ms : List MallRaw) : List JoinedRow :=
  units.flatMap (mergeRowsFor ms)

/-- The Mall_Display lambda of src/app.py lines 52 to 55: the merged
mall_name when it is not NaN, otherwise the synthesized label from the
integer Mall_ID. -/
def mallDisplay (j : JoinedRow) : String :=
  match j.mall_name with
  | some s => s
  | none => "Mall " ++ toString j.unit.Mall_ID

/-- The display-name outcome of load_data: when the dimension dataset is
readable (some ms) the merge plus the per-row lambda runs; when it is
absent or unreadable (none) the dataset-level fallback of src/app.py
lines 57 and 59 labels every unit row from Mall_ID alone. -/
def loadDisplay (units : List Row) (malls : Option (List MallRaw)) : List (Row × String) :=
  match malls with
  | none => units.map (fun u => (u, "Mall " ++ toString u.Mall_ID))
  | some ms => (leftMerge units ms).map (fun j => (j.unit, mallDisplay j))

theorem readCell_ne_empty {s t : String} (h : readCell s = some t) : t ≠ "" := by
  unfold readCell at h
  split at h
  · exact absurd h (by simp)
  · next hc =>
    have ht : t = s := (Option.some.inj h).symm
    subst ht
    intro h0
    rw [h0] at hc
    exact hc (by decide)

theorem mall_label_ne_empty (i : Int) : "Mall " ++ toString i ≠ "" := by
  intro h
  have hd : ("Mall " ++ toString i).data = "".data := congrArg String.data h
  rw [String.data_append] at hd
  have h0 : "Mall ".data ++ (toString i).data = ([] : List Char) := hd
  rcases List.append_eq_nil.mp h0 with ⟨h1, _⟩
  exact absurd h1 (by decide)

theorem unit_of_mem_mergeRowsFor {ms : List MallRaw} {u : Row} {j : JoinedRow}
    (hj : j ∈ mergeRowsFor ms u) : j.unit = u := by
  unfold mergeRowsFor at hj
  split at hj
  · simp at hj; subst hj; rfl
  · rcases List.mem_map.mp hj with ⟨m, _, hm⟩
    subst hm; rfl

theorem name_of_mem_mergeRowsFor {ms : List MallRaw} {u : Row} {j : JoinedRow}
    (hj : j ∈ mergeRowsFor ms u) :
    j.mall_name = none ∨
    ∃ m ∈ matchingMalls ms u.Mall_ID, j.mall_name = readCell m.mall_name := by
  unfold mergeRowsFor at hj
  split at hj
  · simp at hj; subst hj; exact Or.inl rfl
  · rcases List.mem_map.mp hj with ⟨m, hm, hjm⟩
    subst hjm
    exact Or.inr ⟨m, hm, rfl⟩

theorem mem_mergeRowsFor_of_match {ms : List MallRaw} {u : Row} {m : MallRaw}
    (hm : m ∈ matchingMalls ms u.Mall_ID) :
    (⟨u, readCell m.mall_name⟩ : JoinedRow) ∈ mergeRowsFor ms u := by
  have hne : ¬ (matchingMalls ms u.Mall_ID).isEmpty = true := by
    intro h
    rw [List.isEmpty_iff] at h
    rw [h] at hm
    exact absurd hm (List.not_mem_nil m)
  unfold mergeRowsFor
  rw [if_neg hne]
  exact List.mem_map.mpr ⟨m, hm, rfl⟩

theorem mem_mergeRowsFor_fallback {ms : List MallRaw} {u : Row}
    (hall : ∀ m ∈ matchingMalls ms u.Mall_ID, readCell m.mall_name = none) :
    (⟨u, none⟩ : JoinedRow) ∈ mergeRowsFor ms u := by
  by_cases h : (matchingMalls ms u.Mall_ID).isEmpty
  · unfold mergeRowsFor
    rw [if_pos h]
    exact List.mem_singleton.mpr rfl
  · rcases hms : matchingMalls ms u.Mall_ID with _ | ⟨m, t⟩
    · rw [hms] at h; exact absurd rfl h
    · have hm : m ∈ matchingMalls ms u.Mall_ID := by rw [hms]; exact List.mem_cons_self m t
      have := mem_mergeRowsFor_of_match hm
      rwa [hall m hm] at this

/-- Claim C1: in every joined view the derived display name is non-empty;
it is a matched dimension name (necessarily non-NA, hence non-empty under
the read_csv NA model, where an empty name cell loads as NaN) or the
synthesized label from the Mall_ID; a unit with a matching non-NA name gets
that name, a unit all of whose matches have NA names (or with no match)
gets the synthesized label; and when the dimension dataset is absent or
unreadable every unit gets the synthesized label. -/
theorem mall_display_spec (units : List Row) (malls : Option (List MallRaw)) :
    (∀ p ∈ loadDisplay units malls, p.2 ≠ "") ∧
    (∀ ms, malls = some ms →
      (∀ p ∈ loadDisplay units malls,
        (∃ m ∈ matchingMalls ms p.1.Mall_ID, readCell m.mall_name = some p.2) ∨
        p.2 = "Mall " ++ toString p.1.Mall_ID) ∧
      (∀ u ∈ units, ∀ m ∈ matchingMalls ms u.Mall_ID, ∀ s,
        readCell m.mall_name = some s → (u, s) ∈ loadDisplay units malls) ∧
      (∀ u ∈ units, (∀ m ∈ matchingMalls ms u.Mall_ID, readCell m.mall_name = none) →
        (u, "Mall " ++ toString u.Mall_ID) ∈ loadDisplay units malls)) ∧
    (malls = none → ∀ p ∈ loadDisplay units malls,
      p.2 = "Mall " ++ toString p.1.Mall_ID) := by
  refine ⟨?_, ?_, ?_⟩
  · intro p hp
    rcases malls with _ | ms
    · rcases List.mem_map.mp hp with ⟨u, _, hu⟩
      subst hu
      exact mall_label_ne_empty u.Mall_ID
    · rcases List.mem_map.mp hp with ⟨j, hj, hju⟩
      subst hju
      rcases List.mem_flatMap.mp hj with ⟨u, _, hblock⟩
      rcases name_of_mem_mergeRowsFor hblock with hn | ⟨m, _, hn⟩
      · simp only [mallDisplay, hn]
        exact mall_label_ne_empty j.unit.Mall_ID
      · rcases hrc : j.mall_name with _ | s
        · simp only [mallDisplay, hrc]
          exact mall_label_ne_empty j.unit.Mall_ID
        · simp only [mallDisplay, hrc]
          rw [hrc] at hn
          exact readCell_ne_empty hn.symm
  · intro ms hms
    subst hms
    refine ⟨?_, ?_, ?_⟩
    · intro p hp
      rcases List.mem_map.mp hp with ⟨j, hj, hju⟩
      subst hju
      rcases List.mem_flatMap.mp hj with ⟨u, _, hblock⟩
      have hunit := unit_of_mem_mergeRowsFor hblock
      rcases name_of_mem_mergeRowsFor hblock with hn | ⟨m, hm, hn⟩
      · right
        simp only [mallDisplay, hn]
      · rcases hrc : j.mall_name with _ | s
        · right
          simp only [mallDisplay, hrc]
        · left
          rw [hrc] at hn
          refine ⟨m, by rw [hunit]; exact hm, ?_⟩
          simp only [mallDisplay, hrc]
          exact hn.symm
    · intro u hu m hm s hrc
      have hblock := mem_mergeRowsFor_of_match hm
      rw [hrc] at hblock
      have hj : (⟨u, some s⟩ : JoinedRow) ∈ leftMerge units ms :=
        List.mem_flatMap.mpr ⟨u, hu, hblock⟩
      exact List.mem_map.mpr ⟨⟨u, some s⟩, hj, rfl⟩
    · intro u hu hall
      have hblock := mem_mergeRowsFor_fallback hall
      have hj : (⟨u, none⟩ : JoinedRow) ∈ leftMerge units ms :=
        List.mem_flatMap.mpr ⟨u, hu, hblock⟩
      exact List.mem_map.mpr ⟨⟨u, none⟩, hj, rfl⟩
  · intro h p hp
    subst h
    rcases List.mem_map.mp hp with ⟨u, _, hu⟩
    subst hu
    rfl

/-- A concrete dimension row whose id coerces to 1. -/
def mallW : MallRaw := { id := "1", mall_name := "Westfield London" }

/-- A second dimension row with the same id, used to exhibit duplicate-key
behaviour of the left merge. -/
def mallW2 : MallRaw := { id := "1", mall_name := "Westfield Valley Fair" }

theorem to_numeric_one : to_numeric "1" = some 1 := by
  simp [to_numeric, splitDot, natOfDigits]

theorem matchingMalls_mallW : matchingMalls [mallW] 1 = [mallW] := by
  simp [matchingMalls, mallW, to_numeric_one]

/-- Witness for mall_display_spec: the unit row of mall 1 joined with the
dimension row named Westfield London is displayed under that name. -/
theorem mall_display_spec_witness :
    (rowA, "Westfield London") ∈ loadDisplay [rowA] (some [mallW]) :=
  ((mall_display_spec [rowA] (some [mallW])).2.1 [mallW] rfl).2.1 rowA
    (List.mem_singleton.mpr rfl) mallW
    (by rw [show rowA.Mall_ID = 1 from rfl]; rw [matchingMalls_mallW]; exact List.mem_singleton.mpr rfl)
    "Westfield London" (by decide)

theorem leftMerge_cons (v : Row) (rest : List Row) (ms : List MallRaw) :
    leftMerge (v :: rest) ms = mergeRowsFor ms v ++ leftMerge rest ms := by
  simp [leftMerge]

theorem length_mergeRowsFor (ms : List MallRaw) (u : Row) :
    (mergeRowsFor ms u).length = max 1 (matchingMalls ms u.Mall_ID).length := by
  unfold mergeRowsFor
  by_cases h : (matchingMalls ms u.Mall_ID).isEmpty
  · rw [if_pos h]
    rw [List.isEmpty_iff] at h
    simp [h]
  · rw [if_neg h]
    rw [List.length_map]
    have h1 : 1 ≤ (matchingMalls ms u.Mall_ID).length := by
      rcases hms : matchingMalls ms u.Mall_ID with _ | ⟨m, t⟩
      · rw [hms] at h; exact absurd rfl h
      · simp
    exact (Nat.max_eq_right h1).symm

theorem countP_mergeRowsFor (ms : List MallRaw) (v u : Row) :
    (mergeRowsFor ms v).countP (fun j => j.unit == u) =
      if v = u then (mergeRowsFor ms v).length else 0 := by
  by_cases hvu : v = u
  · rw [if_pos hvu]
    apply List.countP_eq_length.mpr
    intro j hj
    have := unit_of_mem_mergeRowsFor hj
    simp [this, hvu]
  · rw [if_neg hvu]
    apply List.countP_eq_zero.mpr
    intro j hj
    have := unit_of_mem_mergeRowsFor hj
    simp [this, hvu]

/-- Claim C7 (amended): in the left merge every unit row appears once per
matching dimension row and once when nothing matches (multiplicity
count-in-units times max 1 matches); hence every unit row is preserved
(appears at least once), but it appears exactly once only when at most one
dimension row matches its key.  Dimension rows whose id cell does not
coerce to numeric never match any unit and no error is raised (the merge is
total). -/
theorem left_join_multiplicity :
    (∀ (units : List Row) (ms : List MallRaw) (u : Row),
      (leftMerge units ms).countP (fun j => j.unit == u) =
        units.countP (fun v => v == u) * max 1 (matchingMalls ms u.Mall_ID).length) ∧
    (∀ (units : List Row) (ms : List MallRaw) (u : Row), u ∈ units →
      1 ≤ (leftMerge units ms).countP (fun j => j.unit == u)) ∧
    (∀ (ms : List MallRaw) (mid : Int) (m : MallRaw),
      m ∈ matchingMalls ms mid → to_numeric m.id ≠ none) := by
  have hA : ∀ (units : List Row) (ms : List MallRaw) (u : Row),
      (leftMerge units ms).countP (fun j => j.unit == u) =
        units.countP (fun v => v == u) * max 1 (matchingMalls ms u.Mall_ID).length := by
    intro units ms u
    induction units with
    | nil => simp [leftMerge]
    | cons v rest ih =>
      rw [leftMerge_cons, List.countP_append, ih, countP_mergeRowsFor, List.countP_cons]
      by_cases hvu : v = u
      · subst hvu
        rw [length_mergeRowsFor]
        simp only [beq_self_eq_true, if_pos rfl, if_true]
        ring
      · have hb : (v == u) = false := beq_eq_false_iff_ne.mpr hvu
        simp [hvu, hb]
  refine ⟨hA, ?_, ?_⟩
  · intro units ms u hu
    rw [hA units ms u]
    have h1 : 1 ≤ units.countP (fun v => v == u) := by
      apply List.countP_pos_iff.mpr
      exact ⟨u, hu, by simp⟩
    have h2 : 1 ≤ max 1 (matchingMalls ms u.Mall_ID).length := le_max_left _ _
    simpa using Nat.mul_le_mul h1 h2
  · intro ms mid m hm hnone
    have := List.of_mem_filter hm
    rw [hnone] at this
    simp at this

/-- Witness for left_join_multiplicity at a concrete input: the single unit
of mall 1 is preserved by the merge with the single Westfield row, and that
dimension row has a coercible id. -/
theorem left_join_multiplicity_witness :
    1 ≤ (leftMerge [rowA] [mallW]).countP (fun j => j.unit == rowA) ∧
    to_numeric mallW.id ≠ none := by
  constructor
  · exact left_join_multiplicity.2.1 [rowA] [mallW] rowA (List.mem_singleton.mpr rfl)
  · exact left_join_multiplicity.2.2 [mallW] 1 mallW
      (by rw [matchingMalls_mallW]; exact List.mem_singleton.mpr rfl)

/-- Claim C7 counterexample: with two dimension rows sharing id 1, the
single unit of mall 1 appears twice in the joined output, not exactly
once. -/
theorem join_duplicate_cex :
    leftMerge [rowA] [mallW, mallW2] =
      [⟨rowA, some "Westfield London"⟩, ⟨rowA, some "Westfield Valley Fair"⟩] ∧
    (leftMerge [rowA] [mallW, mallW2]).countP (fun j => j.unit == rowA) = 2 := by
  have hmm : matchingMalls [mallW, mallW2] rowA.Mall_ID = [mallW, mallW2] := by
    simp [matchingMalls, mallW, mallW2, rowA, to_numeric_one]
  have hlm : leftMerge [rowA] [mallW, mallW2] =
      [⟨rowA, some "Westfield London"⟩, ⟨rowA, some "Westfield Valley Fair"⟩] := by
    rw [leftMerge_cons]
    unfold mergeRowsFor
    rw [hmm]
    simp [leftMerge, mallW, mallW2, readCell, naMarkers]
  refine ⟨hlm, ?_⟩
  rw [hlm]
  simp [List.countP_cons]

/-- Rendering of an optional subcategory cell inside the expander markdown
of src/app.py lines 131 and 132: a NaN cell is a float NaN and the f-string
prints it as "nan". -/
def fmtSubCat : Option String → String
  | some s => s
  | none => "nan"

/-- The ranked alternatives list rendered by the expander of src/app.py
lines 127 to 134.  The condition on line 128 checks only that the
Rec_2_SubCat cell exists and is not NaN; when it holds the code renders all
three numbered lines unconditionally (a NaN Rec_3_SubCat is printed as the
"nan" placeholder and a missing Rec_3_Uplift defaults to 0 via
Series.get); when it fails the code renders no list at all, only the
message that no alternative strategies are available.  A none in the uplift
slot models a NaN cell, which the f-string prints as "nan". -/
def alternatives (r : Row) : List (String × Option ℚ) :=
  if r.Rec_2_SubCat.isSome then
    [(r.Rec_SubCat, some r.Revenue_Uplift),
     (fmtSubCat r.Rec_2_SubCat, r.Rec_2_Uplift),
     (fmtSubCat r.Rec_3_SubCat, r.Rec_3_Uplift)]
  else []

/-- A unit row with a NaN second alternative but a present third
alternative. -/
def rowAlt : Row :=
  { rowB with Rec_3_SubCat := some "Footwear", Rec_3_Uplift := some 25 }

/-- A unit row with a present second alternative and a NaN third
alternative. -/
def rowPad : Row :=
  { rowA with Rec_3_SubCat := none, Rec_3_Uplift := none }

/-- Claim C4 counterexample: a record with NaN alt2 and alt3 = "Footwear"
yields no list at all (length 0, not the claimed 1: the primary is not
rendered inside the expander either); and a record with a present alt2 and
NaN alt3 yields a list of length 3 whose third entry is a "nan"
placeholder, not an omission. -/
theorem alternatives_cex :
    rowAlt.Rec_2_SubCat = none ∧
    rowAlt.Rec_3_SubCat = some "Footwear" ∧
    alternatives rowAlt = [] ∧
    (alternatives rowAlt).length ≠ 1 ∧
    rowPad.Rec_3_SubCat = none ∧
    alternatives rowPad =
      [("Apparel", some 100), ("Footwear", some 60), ("nan", none)] ∧
    (alternatives rowPad).length = 3 := by
  refine ⟨rfl, rfl, rfl, ?_, rfl, rfl, rfl⟩
  intro h
  simp [alternatives, rowAlt, rowB] at h

/-- Claim C4 (amended): the alternatives list of the expander has length 0
or 3, never 1 or 2.  When the second alternative cell is present and
non-NaN the list is exactly the three numbered entries, primary first, with
a NaN third alternative rendered as a "nan" placeholder rather than
omitted; when the second alternative cell is NaN or missing the expander
renders no list (a sentinel message), so the primary is not part of any
list. -/
theorem alternatives_shape (r : Row) :
    (r.Rec_2_SubCat.isSome →
      alternatives r =
        [(r.Rec_SubCat, some r.Revenue_Uplift),
         (fmtSubCat r.Rec_2_SubCat, r.Rec_2_Uplift),
         (fmtSubCat r.Rec_3_SubCat, r.Rec_3_Uplift)] ∧
      (alternatives r).head? = some (r.Rec_SubCat, some r.Revenue_Uplift)) ∧
    (r.Rec_2_SubCat = none → alternatives r = []) ∧
    ((alternatives r).length = 0 ∨ (alternatives r).length = 3) := by
  refine ⟨?_, ?_, ?_⟩
  · intro h
    rw [alternatives, if_pos h]
    exact ⟨rfl, rfl⟩
  · intro h
    rw [alternatives, if_neg (by rw [h]; exact Bool.false_ne_true ∘ id)]
  · rcases h : r.Rec_2_SubCat with _ | s
    · left
      rw [alternatives, if_neg (by rw [h]; exact Bool.false_ne_true ∘ id)]
      rfl
    · right
      rw [alternatives, if_pos (by rw [h]; rfl)]
      rfl

/-- Witness for alternatives_shape: rowA (present alt2) yields the full
three-entry list; rowB (NaN alt2) yields the empty list. -/
theorem alternatives_shape_witness :
    (alternatives rowA).head? = some (rowA.Rec_SubCat, some rowA.Revenue_Uplift) ∧
    alternatives rowB = [] :=
  ⟨((alternatives_shape rowA).1 (by rfl)).2, (alternatives_shape rowB).2.1 rfl⟩

/-- One bar of the scenario chart frame built on src/app.py lines 138 to
146. -/
structure ChartPoint where
  scenario : String
  sales_density : ℚ
  color : String
deriving DecidableEq

/-- The chart_data frame of src/app.py lines 138 to 146: three labeled
points taken directly from the three density fields of the selected row,
with fixed colors. -/
def chart_data (r : Row) : List ChartPoint :=
  [ { scenario := "Current Performance"
    , sales_density := r.Current_Sales_Density
    , color := "#FF4B4B" }
  , { scenario := "Location Potential (Fair Value)"
    , sales_density := r.Model_Location_Potential
    , color := "#808080" }
  , { scenario := "Optimized Tenant (AI)"
    , sales_density := r.Rec_Projected_Sales
    , color := "#2ECC71" } ]

/-- Claim C8 counterexample: the third label of the scenario comparison in
the code is "Optimized Tenant (AI)", not the claimed
"Optimized Tenant (Recommended)". -/
theorem chart_label_cex :
    (chart_data rowA).map (fun c => c.scenario) =
      ["Current Performance", "Location Potential (Fair Value)",
       "Optimized Tenant (AI)"] ∧
    (chart_data rowA).map (fun c => c.scenario) ≠
      ["Current Performance", "Location Potential (Fair Value)",
       "Optimized Tenant (Recommended)"] := by
  exact ⟨rfl, by decide⟩

/-- Claim C8 (amended): for every record the scenario comparison is exactly
the triple of its current_sales_density, model_location_potential and
recommended_projected_sales fields, in that order, with no computation
beyond field selection; the labels are "Current Performance",
"Location Potential (Fair Value)" and "Optimized Tenant (AI)" (the third
label differs from the one stated in the claim). -/
theorem chart_labels_spec (r : Row) :
    (chart_data r).map (fun c => (c.scenario, c.sales_density)) =
      [("Current Performance", r.Current_Sales_Density),
       ("Location Potential (Fair Value)", r.Model_Location_Potential),
       ("Optimized Tenant (AI)", r.Rec_Projected_Sales)] := rfl

/-- The store selection of src/app.py line 120:
mall_data[mall_data["Store_Code"] == target].iloc[0].  The result is the
first row of the ranked frame whose Store_Code equals the selection; when
nothing matches, iloc[0] raises IndexError on the empty selection, which we
model as none — the code has no branch handling that case. -/
def selectStoreRow (ranked : List Row) (target : String) : Option Row :=
  (ranked.filter (fun r => r.Store_Code == target)).head?

theorem head_filter_eq_find {α : Type} (p : α → Bool) (l : List α) :
    (l.filter p).head? = l.find? p := by
  induction l with
  | nil => rfl
  | cons a t ih =>
    by_cases h : p a <;> simp [List.filter_cons, List.find?_cons, h, ih]

/-- Claim C9: on a non-empty ranked sequence the scenario row is the first
record whose Store_Code equals the selection; any returned row belongs to
the sequence and matches the selection; when no record matches, the
positional access yields the error case (none), with no fallback; and the
error case is reachable at a concrete non-empty input. -/
theorem store_row_first_match (ranked : List Row) (target : String)
    (_hne : ranked ≠ []) :
    selectStoreRow ranked target = ranked.find? (fun r => r.Store_Code == target) ∧
    ((∀ r ∈ ranked, r.Store_Code ≠ target) → selectStoreRow ranked target = none) ∧
    (∀ r, selectStoreRow ranked target = some r →
      r ∈ ranked ∧ r.Store_Code = target) ∧
    (selectStoreRow [rowA] "S999" = none ∧ ([rowA] : List Row) ≠ []) := by
  refine ⟨head_filter_eq_find _ ranked, ?_, ?_, rfl, by simp⟩
  · intro hall
    unfold selectStoreRow
    have : ranked.filter (fun r => r.Store_Code == target) = [] := by
      apply List.filter_eq_nil_iff.mpr
      intro r hr
      exact (Bool.not_eq_true _).mpr (beq_eq_false_iff_ne.mpr (hall r hr))
    rw [this]; rfl
  · intro r hr
    unfold selectStoreRow at hr
    rw [head_filter_eq_find] at hr
    exact ⟨List.mem_of_find?_eq_some hr,
      by have := List.find?_some hr; exact beq_iff_eq.mp this⟩

/-- Witness for store_row_first_match: selecting S002 among two rows finds
the matching second row. -/
theorem store_row_first_match_witness :
    selectStoreRow [rowA, rowB] "S002" =
      [rowA, rowB].find? (fun r => r.Store_Code == "S002") :=
  (store_row_first_match [rowA, rowB] "S002" (by simp)).1

/-- A cell of the Mall_ID column as pandas loads it: an int64 cell, a
float64 cell (modelled by its integral value n, displayed "n.0" —
fractional mall ids do not arise in the analysed scenarios), the float NaN
of a missing cell, or an object (string) cell.  A column containing any
string cell loads with dtype object; a column containing a NaN loads as
float64, turning its integer cells into floats. -/
inductive PVal where
  | intV : Int → PVal
  | floatV : Int → PVal
  | nanV : PVal
  | strV : String → PVal
deriving DecidableEq

/-- The Python int() coercion applied on src/app.py line 53: identity on
ints, truncation on floats (identity on the modelled integral floats), and
a raised ValueError — modelled none — on NaN and on any string that is not
an integer literal. -/
def pyInt : PVal → Option Int
  | .intV n => some n
  | .floatV n => some n
  | .nanV => none
  | .strV t =>
    match t.data with
    | '-' :: rest => (natOfDigits rest).map (fun n => -(n : Int))
    | cs => (natOfDigits cs).map (fun n => (n : Int))

/-- The Python str() form of a Mall_ID cell as produced by astype(str) on
src/app.py lines 57 and 59: ints print bare, the integral float n prints
"n.0", NaN prints "nan", strings print themselves. -/
def pyStr : PVal → String
  | .intV n => toString n
  | .floatV n => toString n ++ ".0"
  | .nanV => "nan"
  | .strV t => t

/-- The dataset-level fallback label of src/app.py lines 57 and 59:
"Mall " + str(Mall_ID). -/
def datasetLabel (v : PVal) : String := "Mall " ++ pyStr v

/-- The per-record fallback label of src/app.py line 53:
f-string "Mall {int(Mall_ID)}"; none when int() raises. -/
def perRecordLabel (v : PVal) : Option String :=
  (pyInt v).map (fun n => "Mall " ++ toString n)

/-- A unit row of the PVal model: only the two columns the fallback
analysis touches. -/
structure UnitP where
  Store_Code : String
  Mall_ID : PVal
deriving DecidableEq

/-- Whether the Mall_ID column holds any string cell, making its dtype
object; merging an object key column against the numeric id column raises
a pandas MergeError inside the try of load_data. -/
def columnIsObject (units : List UnitP) : Bool :=
  units.any (fun u => match u.Mall_ID with | .strV _ => true | _ => false)

/-- The numeric merge key a Mall_ID cell contributes when the column is
numeric: NaN (none) for the NaN cell.  (The string case cannot reach the
merge: an object column raises first.) -/
def keyOf : PVal → Option ℚ
  | .intV n => some (n : ℚ)
  | .floatV n => some (n : ℚ)
  | .nanV => none
  | .strV _ => none

/-- Merge key equality: pandas merge treats NaN as an ordinary key value,
so two NaN keys match each other (none == none). -/
def keyMatches (v : PVal) (m : MallRaw) : Bool :=
  keyOf v == to_numeric m.id

/-- The left merge of src/app.py line 50 in the PVal model. -/
def mergedP (units : List UnitP) (ms : List MallRaw) : List (UnitP × Option String) :=
  units.flatMap (fun u =>
    if (ms.filter (keyMatches u.Mall_ID)).isEmpty then [(u, none)]
    else (ms.filter (keyMatches u.Mall_ID)).map (fun m => (u, readCell m.mall_name)))

/-- The full display-name computation of load_data (src/app.py lines 41 to
59) in the PVal model.  none for malls: the dimension file is absent or
unreadable, so the dataset-level fallback labels every row.  some ms: if
the Mall_ID column is object-typed the merge raises and the except on line
56 applies the dataset-level fallback to every row; otherwise the merge
runs and the per-row lambda executes — if int() raises on any row whose
merged name is NaN, the same except catches it and the dataset-level
fallback overwrites every row, discarding all matched names; only when no
row raises do the per-row results stand.  (The getD branch is unreachable:
the guard just above it ensures pyInt succeeded on every NaN-named row.) -/
def loadDataP (units : List UnitP) (malls : Option (List MallRaw)) : List (UnitP × String) :=
  match malls with
  | none => units.map (fun u => (u, datasetLabel u.Mall_ID))
  | some ms =>
    if columnIsObject units then
      units.map (fun u => (u, datasetLabel u.Mall_ID))
    else if (mergedP units ms).any
        (fun p => p.2 == none && pyInt p.1.Mall_ID == none) then
      units.map (fun u => (u, datasetLabel u.Mall_ID))
    else
      (mergedP units ms).map (fun p =>
        (p.1, match p.2 with
              | some s => s
              | none => (perRecordLabel p.1.Mall_ID).getD (datasetLabel p.1.Mall_ID)))

/-- Unit whose Mall_ID cell is the float 1.0. -/
def unitP1 : UnitP := { Store_Code := "S001", Mall_ID := .floatV 1 }

/-- Unit whose Mall_ID cell is NaN. -/
def unitP2 : UnitP := { Store_Code := "S002", Mall_ID := .nanV }

/-- Unit whose Mall_ID cell is the float 7.0. -/
def unitP7 : UnitP := { Store_Code := "S007", Mall_ID := .floatV 7 }

/-- Claim C10: the two synthesized-label fallback paths are not equivalent
— on the float Mall_ID 7.0 the per-record pass labels "Mall 7" while the
dataset-level path labels "Mall 7.0", and the same unit receives these two
different names in the two modes; moreover a NaN Mall_ID makes int() raise
inside the per-record pass, which silently switches the entire join to
dataset-level labels: with units {1.0, NaN} and a dimension row named
Westfield London matching id 1, the output labels are "Mall 1.0" and
"Mall nan" and the matched name is discarded, although without the NaN
unit the matched name is surfaced. -/
theorem fallback_paths_diverge :
    perRecordLabel (PVal.floatV 7) = some "Mall 7" ∧
    datasetLabel (PVal.floatV 7) = "Mall 7.0" ∧
    "Mall 7" ≠ "Mall 7.0" ∧
    loadDataP [unitP7] (some []) = [(unitP7, "Mall 7")] ∧
    loadDataP [unitP7] none = [(unitP7, "Mall 7.0")] ∧
    pyInt unitP2.Mall_ID = none ∧
    loadDataP [unitP1, unitP2] (some [mallW]) =
      [(unitP1, "Mall 1.0"), (unitP2, "Mall nan")] ∧
    ¬ ("Westfield London" ∈
        (loadDataP [unitP1, unitP2] (some [mallW])).map (fun p => p.2)) ∧
    loadDataP [unitP1] (some [mallW]) = [(unitP1, "Westfield London")] := by
  refine ⟨rfl, rfl, by decide, ?_, rfl, rfl, ?_, ?_, ?_⟩
  · simp [loadDataP, mergedP, columnIsObject, keyMatches, keyOf, unitP7,
      perRecordLabel, pyInt, datasetLabel, pyStr]
    decide
  · simp [loadDataP, mergedP, columnIsObject, keyMatches, keyOf, unitP1,
      unitP2, mallW, to_numeric_one, readCell, naMarkers, perRecordLabel,
      pyInt, datasetLabel, pyStr]
    decide
  · simp [loadDataP, mergedP, columnIsObject, keyMatches, keyOf, unitP1,
      unitP2, mallW, to_numeric_one, readCell, naMarkers, perRecordLabel,
      pyInt, datasetLabel, pyStr]
    decide
  · simp [loadDataP, mergedP, columnIsObject, keyMatches, keyOf, unitP1,
      mallW, to_numeric_one, readCell, naMarkers, perRecordLabel, pyInt,
      datasetLabel, pyStr]
